import Mathlib

/-!
Shallow embedding of the synthetic customer generator of
`generate_outputs.py` (section 1 of the script, plus the two
post-generation column additions used by the visualisation section).

The random stream is modelled abstractly: `np.random.seed(seed)` fixes the
whole stream of draws, so a seeded run is a family of draw functions, one
per draw site of the source, indexed by row.  Floating point arithmetic is
modelled exactly over `ℚ` (for the linear/clamping/rounding parts) and `ℝ`
(for the sigmoid).
-/

/-! ### Numeric helpers (np.clip, astype(int), np.round) -/

/-- `np.clip(x, lo, hi)` : `min (max x lo) hi`. -/
def clip (x lo hi : ℚ) : ℚ := min (max x lo) hi

/-- pandas `Series.clip(lower)` (one-sided clip, as in `.clip(0)`). -/
def clipLo (x lo : ℚ) : ℚ := max x lo

/-- numpy `astype(int)`: truncation toward zero. -/
def truncInt (x : ℚ) : ℤ := if 0 ≤ x then ⌊x⌋ else ⌈x⌉

/-- numpy rounding of a scaled value to the nearest integer, ties to even. -/
def roundHalfToEven (x : ℚ) : ℤ :=
  if x - ⌊x⌋ < 1 / 2 then ⌊x⌋
  else if 1 / 2 < x - ⌊x⌋ then ⌊x⌋ + 1
  else if ⌊x⌋ % 2 = 0 then ⌊x⌋ else ⌊x⌋ + 1

/-- `np.round(x, 2)`. -/
def round2 (x : ℚ) : ℚ := (roundHalfToEven (100 * x) : ℚ) / 100

/-- `np.round(x, 1)`. -/
def round1 (x : ℚ) : ℚ := (roundHalfToEven (10 * x) : ℚ) / 10

/-! ### Decimal strings: Python `str(i).zfill(5)` -/

/-- Little-endian decimal digits, fuel-bounded so that the kernel can
evaluate it; fuel 40 covers every `n < 10^40`. -/
def decDigitsAux : ℕ → ℕ → List ℕ
  | 0, _ => []
  | fuel + 1, n => if n = 0 then [] else n % 10 :: decDigitsAux fuel (n / 10)

/-- Little-endian decimal digits of `n` (empty for `0`; the generator only
formats numbers `≥ 1`). -/
def decDigits (n : ℕ) : List ℕ := decDigitsAux 40 n

/-- Value of a little-endian digit list. -/
def fromDigits : List ℕ → ℕ
  | [] => 0
  | d :: l => d + 10 * fromDigits l

/-- Python `str(n)` for a natural number, as a character list. -/
def decChars (n : ℕ) : List Char := (decDigits n).reverse.map Nat.digitChar

/-- Python `str.zfill(k)`: left-pad with `'0'` to length at least `k`. -/
def pyZfill (k : ℕ) (l : List Char) : List Char :=
  List.replicate (k - l.length) '0' ++ l

/-- `f'CUST{str(i).zfill(5)}'` (source line 37). -/
def customerId (i : ℕ) : String := "CUST" ++ String.mk (pyZfill 5 (decChars i))

/-- Decidable check of the spec's id format: `CUST` followed by exactly five
decimal digits. -/
def idFormatOK (s : String) : Bool :=
  s.length == 9 && s.toList.take 4 == ['C', 'U', 'S', 'T'] &&
    (s.toList.drop 4).all (fun c => c.isDigit)

/-! ### The data model -/

/-- One generated customer row, before the churn label is attached
(source lines 36–56). -/
structure Record where
  customer_id : String
  age : ℤ
  gender : String
  tenure_months : ℤ
  contract_type : String
  monthly_charges : ℚ
  internet_service : String
  online_security : String
  tech_support : String
  streaming_tv : String
  payment_method : String
  paperless_billing : String
  support_tickets : ℕ
  customer_satisfaction : ℚ
  total_charges : ℚ
  deriving Inhabited, DecidableEq

/-- Outcomes of `np.random.choice(['Male', 'Female', 'Other'], ...)`. -/
def genderName : Fin 3 → String
  | 0 => "Male"
  | 1 => "Female"
  | 2 => "Other"

/-- Outcomes of the contract-type choice. -/
def contractName : Fin 3 → String
  | 0 => "Month-to-month"
  | 1 => "One year"
  | 2 => "Two year"

/-- Outcomes of the internet-service choice. -/
def internetName : Fin 3 → String
  | 0 => "DSL"
  | 1 => "Fiber optic"
  | 2 => "No"

/-- Outcomes of `np.random.choice(['Yes', 'No'], ...)`. -/
def yesNoName : Fin 2 → String
  | 0 => "Yes"
  | 1 => "No"

/-- Outcomes of the payment-method choice. -/
def paymentName : Fin 4 → String
  | 0 => "Electronic check"
  | 1 => "Mailed check"
  | 2 => "Bank transfer"
  | 3 => "Credit card"

/-- The seeded random stream: `np.random.seed(seed)` determines every
subsequent draw, so a seeded run is one value of this structure, with one
draw function per draw site of the source, indexed by row.  Categorical
draws are the chosen index; `ticketsRaw` is the Poisson draw (a natural
number). -/
structure RandStream where
  ageRaw : ℕ → ℚ
  genderRaw : ℕ → Fin 3
  tenureRaw : ℕ → ℚ
  contractRaw : ℕ → Fin 3
  monthlyRaw : ℕ → ℚ
  internetRaw : ℕ → Fin 3
  onlineSecurityRaw : ℕ → Fin 2
  techSupportRaw : ℕ → Fin 2
  streamingTvRaw : ℕ → Fin 2
  paymentRaw : ℕ → Fin 4
  paperlessRaw : ℕ → Fin 2
  ticketsRaw : ℕ → ℕ
  satisfactionRaw : ℕ → ℚ
  noiseRaw : ℕ → ℚ
  churnRaw : ℕ → ℚ

/-- Row `i` (0-based) of the generated table, fields in source order
(lines 37–56): each field is the stated draw, clamped/rounded exactly as in
the source; `total_charges` is computed from the already clamped tenure and
already rounded monthly charges columns, plus noise, clipped at `0`, then
rounded to 2 decimals. -/
def mkRecord (s : RandStream) (i : ℕ) : Record where
  customer_id := customerId (i + 1)
  age := truncInt (clip (s.ageRaw i) 18 90)
  gender := genderName (s.genderRaw i)
  tenure_months := truncInt (clip (s.tenureRaw i) 0 200)
  contract_type := contractName (s.contractRaw i)
  monthly_charges := round2 (s.monthlyRaw i)
  internet_service := internetName (s.internetRaw i)
  online_security := yesNoName (s.onlineSecurityRaw i)
  tech_support := yesNoName (s.techSupportRaw i)
  streaming_tv := yesNoName (s.streamingTvRaw i)
  payment_method := paymentName (s.paymentRaw i)
  paperless_billing := yesNoName (s.paperlessRaw i)
  support_tickets := s.ticketsRaw i
  customer_satisfaction := round1 (s.satisfactionRaw i)
  total_charges :=
    round2 (clipLo ((truncInt (clip (s.tenureRaw i) 0 200) : ℚ) *
      round2 (s.monthlyRaw i) + s.noiseRaw i) 0)

/-! ### Churn probability (source lines 59–72) -/

/-- The logit accumulated exactly as in `calculate_churn_probability`
(source lines 60–66), one `+=` at a time. -/
def churnLogit (row : Record) : ℚ :=
  -2
    + (-0.05) * (row.tenure_months : ℚ)
    + 0.02 * row.monthly_charges
    + (if row.contract_type = "Month-to-month" then 1.5 else 0)
    + (if row.contract_type = "One year" then 0.5 else 0)
    + 0.3 * (row.support_tickets : ℚ)
    + (-0.8) * row.customer_satisfaction

/-- `prob = 1 / (1 + np.exp(-logit))` (source line 67). -/
noncomputable def calculate_churn_probability (row : Record) : ℝ :=
  1 / (1 + Real.exp (-(churnLogit row : ℝ)))

/-- The churn-model logit written as the spec (§4.1) writes it, as a single
closed-form sum. -/
def specLogit (row : Record) : ℚ :=
  -2 + (-0.05 * (row.tenure_months : ℚ)) + (0.02 * row.monthly_charges)
    + (if row.contract_type = "Month-to-month" then 1.5 else 0)
    + (if row.contract_type = "One year" then 0.5 else 0)
    + (0.3 * (row.support_tickets : ℚ)) + (-0.8 * row.customer_satisfaction)

/-- The spec's churn probability `1 / (1 + exp(-logit))`. -/
noncomputable def specProb (row : Record) : ℝ :=
  1 / (1 + Real.exp (-(specLogit row : ℝ)))

open Classical in
/-- The churn label of row `i`: `'Yes'` exactly when the row's uniform draw
is below the row's churn probability (source line 71). -/
noncomputable def churnOf (s : RandStream) (i : ℕ) (row : Record) : String :=
  if (s.churnRaw i : ℝ) < calculate_churn_probability row then "Yes" else "No"

/-- The intermediate table of source lines 70–71: each row paired with its
`churn_prob` column and its churn label. -/
noncomputable def tableWithProbChurn (s : RandStream) (n : ℕ) :
    List (Record × ℝ × String) :=
  (List.range n).map fun i =>
    (mkRecord s i, calculate_churn_probability (mkRecord s i),
      churnOf s i (mkRecord s i))

/-- The generator: `n` rows, each a record with its churn label (the
exported table, after `churn_prob` is dropped on source line 72). -/
noncomputable def generate (s : RandStream) (n : ℕ) : List (Record × String) :=
  (List.range n).map fun i => (mkRecord s i, churnOf s i (mkRecord s i))

/-! ### Column-level view of the table (for the frame claims) -/

/-- Columns of the DataFrame literal of source lines 36–52, in order. -/
def dataFrameColumns : List String :=
  ["customer_id", "age", "gender", "tenure_months", "contract_type",
   "monthly_charges", "internet_service", "online_security", "tech_support",
   "streaming_tv", "payment_method", "paperless_billing", "support_tickets",
   "customer_satisfaction"]

/-- Columns after `total_charges` is added (source line 55). -/
def columnsWithTotal : List String := dataFrameColumns ++ ["total_charges"]

/-- Columns after `churn_prob` is added (source line 70). -/
def columnsWithProb : List String := columnsWithTotal ++ ["churn_prob"]

/-- Columns after `churn` is added (source line 71). -/
def columnsWithChurn : List String := columnsWithProb ++ ["churn"]

/-- Columns after `data.drop('churn_prob', axis=1)` (source line 72); this
is the schema exported to CSV on lines 75–76. -/
def exportedColumns : List String := columnsWithChurn.erase "churn_prob"

/-- Columns after the visualisation section added `tenure_group`
(source line 159) and `satisfaction_group` (source line 177). -/
def vizColumns : List String :=
  exportedColumns ++ ["tenure_group", "satisfaction_group"]

/-- `pd.cut(tenure_months, bins=[-1, 12, 24, 48, 200], labels=...)`
(source line 159); bins are right-closed, out-of-range gives `none`. -/
def pdCutTenure (t : ℤ) : Option String :=
  if -1 < t ∧ t ≤ 12 then some "0-1 year"
  else if 12 < t ∧ t ≤ 24 then some "1-2 years"
  else if 24 < t ∧ t ≤ 48 then some "2-4 years"
  else if 48 < t ∧ t ≤ 200 then some "4+ years"
  else none

/-- `pd.cut(customer_satisfaction, bins=[0, 2, 3, 4, 5], labels=...)`
(source line 177). -/
def pdCutSat (x : ℚ) : Option String :=
  if 0 < x ∧ x ≤ 2 then some "Poor (1-2)"
  else if 2 < x ∧ x ≤ 3 then some "Fair (2-3)"
  else if 3 < x ∧ x ≤ 4 then some "Good (3-4)"
  else if 4 < x ∧ x ≤ 5 then some "Excellent (4-5)"
  else none

/-- A row as it stands after the visualisation section: the original record
and churn label, plus the two derived group columns. -/
structure VizRecord where
  base : Record
  churn : String
  tenure_group : Option String
  satisfaction_group : Option String

/-- The effect of source lines 159 and 177 on one row: the two group
columns are derived and appended; nothing else is touched. -/
def addGroups (p : Record × String) : VizRecord where
  base := p.1
  churn := p.2
  tenure_group := pdCutTenure p.1.tenure_months
  satisfaction_group := pdCutSat p.1.customer_satisfaction

/-! ### Concrete sample inputs (used by witnesses and counterexamples) -/

/-- A concrete random stream (one possible seeded stream). -/
def exampleStream : RandStream where
  ageRaw := fun _ => 45
  genderRaw := fun _ => 0
  tenureRaw := fun _ => 12
  contractRaw := fun _ => 0
  monthlyRaw := fun _ => 50
  internetRaw := fun _ => 0
  onlineSecurityRaw := fun _ => 0
  techSupportRaw := fun _ => 0
  streamingTvRaw := fun _ => 0
  paymentRaw := fun _ => 0
  paperlessRaw := fun _ => 0
  ticketsRaw := fun _ => 2
  satisfactionRaw := fun _ => 3
  noiseRaw := fun _ => 0
  churnRaw := fun _ => 1 / 2

/-- A concrete row for the monotonicity witnesses. -/
def sampleRecord : Record where
  customer_id := "CUST00001"
  age := 40
  gender := "Male"
  tenure_months := 12
  contract_type := "Month-to-month"
  monthly_charges := 50
  internet_service := "DSL"
  online_security := "Yes"
  tech_support := "Yes"
  streaming_tv := "Yes"
  payment_method := "Mailed check"
  paperless_billing := "Yes"
  support_tickets := 2
  customer_satisfaction := 3
  total_charges := 600

/-- The first example row of spec §8: tenure 0, monthly charges 20,
month-to-month, no tickets, satisfaction 5. -/
def specRow1 : Record where
  customer_id := "CUST00001"
  age := 40
  gender := "Male"
  tenure_months := 0
  contract_type := "Month-to-month"
  monthly_charges := 20
  internet_service := "DSL"
  online_security := "Yes"
  tech_support := "Yes"
  streaming_tv := "Yes"
  payment_method := "Mailed check"
  paperless_billing := "Yes"
  support_tickets := 0
  customer_satisfaction := 5
  total_charges := 0

/-- The second example row of spec §8: tenure 0, monthly charges 120,
month-to-month, ten tickets, satisfaction 1. -/
def specRow2 : Record where
  customer_id := "CUST00002"
  age := 40
  gender := "Male"
  tenure_months := 0
  contract_type := "Month-to-month"
  monthly_charges := 120
  internet_service := "DSL"
  online_security := "Yes"
  tech_support := "Yes"
  streaming_tv := "Yes"
  payment_method := "Mailed check"
  paperless_billing := "Yes"
  support_tickets := 10
  customer_satisfaction := 1
  total_charges := 0

/-! ### Helper lemmas: clamps and rounding -/

lemma truncInt_mem {lo hi : ℤ} {x : ℚ} (h0 : 0 ≤ lo)
    (h1 : (lo : ℚ) ≤ x) (h2 : x ≤ (hi : ℚ)) :
    lo ≤ truncInt x ∧ truncInt x ≤ hi := by
  have hx : (0 : ℚ) ≤ x := le_trans (by exact_mod_cast h0) h1
  constructor
  · rw [truncInt, if_pos hx]
    exact Int.le_floor.mpr h1
  · rw [truncInt, if_pos hx]
    calc ⌊x⌋ ≤ ⌊(hi : ℚ)⌋ := Int.floor_le_floor h2
    _ = hi := Int.floor_intCast hi

lemma clip_mem {x lo hi : ℚ} (h : lo ≤ hi) :
    lo ≤ clip x lo hi ∧ clip x lo hi ≤ hi :=
  ⟨le_min (le_max_right x lo) h, min_le_right _ _⟩

lemma age_field_bounds (x : ℚ) :
    18 ≤ truncInt (clip x 18 90) ∧ truncInt (clip x 18 90) ≤ 90 := by
  obtain ⟨h1, h2⟩ := clip_mem (x := x) (show (18 : ℚ) ≤ 90 by norm_num)
  exact truncInt_mem (by norm_num) (by exact_mod_cast h1) (by exact_mod_cast h2)

lemma tenure_field_bounds (x : ℚ) :
    0 ≤ truncInt (clip x 0 200) ∧ truncInt (clip x 0 200) ≤ 200 := by
  obtain ⟨h1, h2⟩ := clip_mem (x := x) (show (0 : ℚ) ≤ 200 by norm_num)
  exact truncInt_mem (by norm_num) (by exact_mod_cast h1) (by exact_mod_cast h2)

lemma roundHalfToEven_nonneg {x : ℚ} (h : 0 ≤ x) : 0 ≤ roundHalfToEven x := by
  have hf : (0 : ℤ) ≤ ⌊x⌋ := Int.floor_nonneg.mpr h
  unfold roundHalfToEven
  split
  · exact hf
  · split
    · omega
    · split
      · exact hf
      · omega

lemma round2_nonneg {x : ℚ} (h : 0 ≤ x) : 0 ≤ round2 x := by
  unfold round2
  have : (0 : ℤ) ≤ roundHalfToEven (100 * x) :=
    roundHalfToEven_nonneg (by positivity)
  positivity

/-! ### Helper lemmas: decimal strings -/

lemma fromDigits_decDigitsAux :
    ∀ fuel n, n < 10 ^ fuel → fromDigits (decDigitsAux fuel n) = n := by
  intro fuel
  induction fuel with
  | zero => intro n hn; interval_cases n; rfl
  | succ f ih =>
    intro n hn
    by_cases h : n = 0
    · subst h; simp [decDigitsAux, fromDigits]
    · have hd : n / 10 < 10 ^ f := by
        rw [Nat.div_lt_iff_lt_mul (by norm_num)]
        calc n < 10 ^ (f + 1) := hn
        _ = 10 ^ f * 10 := by ring
      simp only [decDigitsAux, h, if_false, fromDigits]
      rw [ih _ hd]
      exact Nat.mod_add_div n 10

lemma decDigitsAux_mem_lt :
    ∀ fuel n d, d ∈ decDigitsAux fuel n → d < 10 := by
  intro fuel
  induction fuel with
  | zero => intro n d hd; simp [decDigitsAux] at hd
  | succ f ih =>
    intro n d hd
    by_cases h : n = 0
    · subst h; simp [decDigitsAux] at hd
    · simp only [decDigitsAux, h, if_false, List.mem_cons] at hd
      rcases hd with hd | hd
      · subst hd; exact Nat.mod_lt n (by norm_num)
      · exact ih _ _ hd

lemma decDigitsAux_length_le :
    ∀ fuel n k, n < 10 ^ k → (decDigitsAux fuel n).length ≤ k := by
  intro fuel
  induction fuel with
  | zero => intro n k _; simp [decDigitsAux]
  | succ f ih =>
    intro n k hn
    by_cases h : n = 0
    · subst h; simp [decDigitsAux]
    · have hk : 1 ≤ k := by
        by_contra hk
        interval_cases k
        · omega
      have hd : n / 10 < 10 ^ (k - 1) := by
        rw [Nat.div_lt_iff_lt_mul (by norm_num)]
        calc n < 10 ^ k := hn
        _ = 10 ^ (k - 1) * 10 := by
              rw [← pow_succ]; congr 1; omega
      simp only [decDigitsAux, h, if_false, List.length_cons]
      have := ih (n / 10) (k - 1) hd
      omega

/-- Value of a digit character, as used to parse the id back. -/
def charVal (c : Char) : ℕ := c.toNat - 48

/-- Parse a big-endian digit character list. -/
def strVal (l : List Char) : ℕ := l.foldl (fun a c => 10 * a + charVal c) 0

lemma charVal_digitChar {d : ℕ} (hd : d < 10) :
    charVal (Nat.digitChar d) = d := by
  interval_cases d <;> rfl

lemma digitChar_isDigit {d : ℕ} (hd : d < 10) :
    (Nat.digitChar d).isDigit = true := by
  interval_cases d <;> rfl

lemma foldl_rev_digits (L : List ℕ) (hL : ∀ d ∈ L, d < 10) :
    ∀ a : ℕ,
      (L.reverse.map Nat.digitChar).foldl (fun a c => 10 * a + charVal c) a
        = a * 10 ^ L.length + fromDigits L := by
  induction L with
  | nil => intro a; simp [fromDigits]
  | cons d T ih =>
    intro a
    have hd : d < 10 := hL d (List.mem_cons_self d T)
    have hT : ∀ x ∈ T, x < 10 := fun x hx => hL x (List.mem_cons_of_mem d hx)
    simp only [List.reverse_cons, List.map_append, List.foldl_append,
      List.map_cons, List.map_nil, List.foldl_cons, List.foldl_nil,
      List.length_cons, fromDigits]
    rw [ih hT a, charVal_digitChar hd]
    ring

lemma strVal_replicate_zero :
    ∀ k, (List.replicate k '0').foldl (fun a c => 10 * a + charVal c) 0 = 0 := by
  intro k
  induction k with
  | zero => rfl
  | succ m ih =>
    simp only [List.replicate_succ, List.foldl_cons]
    have h0 : (10 * 0 + charVal '0') = 0 := by rfl
    rw [h0, ih]

lemma strVal_pyZfill_decChars {n : ℕ} (hn : n < 10 ^ 40) :
    strVal (pyZfill 5 (decChars n)) = n := by
  have hd : ∀ d ∈ decDigits n, d < 10 := fun d hd => decDigitsAux_mem_lt _ _ _ hd
  unfold strVal pyZfill decChars
  rw [List.foldl_append, strVal_replicate_zero]
  rw [foldl_rev_digits _ hd 0]
  simp [decDigits, fromDigits_decDigitsAux 40 n hn]

lemma customerId_inj {i j : ℕ} (hi : i < 10 ^ 40) (hj : j < 10 ^ 40)
    (h : customerId i = customerId j) : i = j := by
  unfold customerId at h
  have hdata := congrArg String.data h
  simp only [String.data_append] at hdata
  have hz : pyZfill 5 (decChars i) = pyZfill 5 (decChars j) := by
    simpa using hdata
  have hv := congrArg strVal hz
  rwa [strVal_pyZfill_decChars hi, strVal_pyZfill_decChars hj] at hv

lemma customerId_data (m : ℕ) :
    (customerId m).data = 'C' :: 'U' :: 'S' :: 'T' :: pyZfill 5 (decChars m) :=
  rfl

lemma idFormatOK_customerId {m : ℕ} (hm : m < 10 ^ 5) :
    idFormatOK (customerId m) = true := by
  have hlen : (decChars m).length ≤ 5 := by
    unfold decChars decDigits
    rw [List.length_map, List.length_reverse]
    exact decDigitsAux_length_le 40 m 5 hm
  have hZlen : (pyZfill 5 (decChars m)).length = 5 := by
    unfold pyZfill
    rw [List.length_append, List.length_replicate]
    omega
  have hdig : ∀ c ∈ pyZfill 5 (decChars m), c.isDigit = true := by
    intro c hc
    unfold pyZfill at hc
    rcases List.mem_append.mp hc with hc | hc
    · rw [List.eq_of_mem_replicate hc]; rfl
    · unfold decChars at hc
      obtain ⟨d, hd, rfl⟩ := List.mem_map.mp hc
      exact digitChar_isDigit
        (decDigitsAux_mem_lt 40 m d (List.mem_reverse.mp hd))
  unfold idFormatOK
  rw [Bool.and_eq_true, Bool.and_eq_true]
  refine ⟨⟨?_, ?_⟩, ?_⟩
  · rw [beq_iff_eq]
    show (customerId m).data.length = 9
    rw [customerId_data]
    simp [hZlen]
  · rw [beq_iff_eq]
    show ((customerId m).data.take 4) = _
    rw [customerId_data]
    rfl
  · rw [List.all_eq_true]
    intro c hc
    apply hdig
    have hdrop : (customerId m).toList.drop 4 = pyZfill 5 (decChars m) := by
      show (customerId m).data.drop 4 = _
      rw [customerId_data]
      rfl
    rw [hdrop] at hc
    exact hc

/-! ### Helper lemmas: the sigmoid and the logit -/

lemma churnLogit_eq_specLogit (row : Record) : churnLogit row = specLogit row := by
  simp only [churnLogit, specLogit]

lemma sigmoid_strictMono {x y : ℝ} (h : x < y) :
    1 / (1 + Real.exp (-x)) < 1 / (1 + Real.exp (-y)) := by
  have h1 : Real.exp (-y) < Real.exp (-x) := Real.exp_lt_exp.mpr (by linarith)
  have h2 : 0 < 1 + Real.exp (-y) := by positivity
  exact one_div_lt_one_div_of_lt h2 (by linarith)

lemma prob_lt_prob_of_logit_lt {a b : Record}
    (h : churnLogit a < churnLogit b) :
    calculate_churn_probability a < calculate_churn_probability b := by
  unfold calculate_churn_probability
  exact sigmoid_strictMono (by exact_mod_cast h)

lemma exp_tenth_bounds :
    (11 / 10 : ℝ) ≤ Real.exp (1 / 10) ∧ Real.exp (1 / 10) ≤ 10 / 9 := by
  constructor
  · have := Real.add_one_le_exp (1 / 10 : ℝ)
    linarith
  · have h1 := Real.add_one_le_exp (-(1 / 10) : ℝ)
    have h2 : Real.exp (-(1 / 10)) * Real.exp (1 / 10) = 1 := by
      rw [← Real.exp_add]; norm_num
    have h3 : (0 : ℝ) < Real.exp (1 / 10) := Real.exp_pos _
    nlinarith

lemma exp_41_bounds :
    (60 : ℝ) < Real.exp (41 / 10) ∧ Real.exp (41 / 10) < 61 := by
  have hsplit : Real.exp (41 / 10) = Real.exp 1 ^ 4 * Real.exp (1 / 10) := by
    rw [← Real.exp_nat_mul, ← Real.exp_add]; norm_num
  have he_lo := Real.exp_one_gt_d9
  have he_hi := Real.exp_one_lt_d9
  have hpos : (0 : ℝ) < Real.exp 1 := Real.exp_pos 1
  have h4lo : (54.598 : ℝ) ≤ Real.exp 1 ^ 4 := by
    have : (2.7182818283 : ℝ) ^ 4 ≤ Real.exp 1 ^ 4 :=
      pow_le_pow_left₀ (by norm_num) (le_of_lt he_lo) 4
    nlinarith
  have h4hi : Real.exp 1 ^ 4 ≤ (54.599 : ℝ) := by
    have : Real.exp 1 ^ 4 ≤ (2.7182818286 : ℝ) ^ 4 :=
      pow_le_pow_left₀ (le_of_lt hpos) (le_of_lt he_hi) 4
    nlinarith
  obtain ⟨ht_lo, ht_hi⟩ := exp_tenth_bounds
  rw [hsplit]
  constructor
  · nlinarith
  · nlinarith

lemma prob_at_neg41 :
    (0.016 : ℝ) < 1 / (1 + Real.exp (41 / 10)) ∧
      1 / (1 + Real.exp (41 / 10)) < 0.017 := by
  obtain ⟨hlo, hhi⟩ := exp_41_bounds
  have hpos : (0 : ℝ) < 1 + Real.exp (41 / 10) := by positivity
  constructor
  · rw [lt_div_iff₀ hpos]; nlinarith
  · rw [div_lt_iff₀ hpos]; nlinarith

lemma prob_at_pos41 :
    (0.983 : ℝ) < 1 / (1 + Real.exp (-(41 / 10 : ℝ))) ∧
      1 / (1 + Real.exp (-(41 / 10 : ℝ))) < 0.984 := by
  obtain ⟨hlo, hhi⟩ := exp_41_bounds
  have hE : (0 : ℝ) < Real.exp (41 / 10) := Real.exp_pos _
  have hneg : Real.exp (-(41 / 10 : ℝ)) = (Real.exp (41 / 10))⁻¹ :=
    Real.exp_neg _
  have hinv_lo : (1 / 61 : ℝ) < (Real.exp (41 / 10))⁻¹ := by
    rw [lt_inv_comm₀ (by norm_num) hE]; linarith
  have hinv_hi : (Real.exp (41 / 10))⁻¹ < (1 / 60 : ℝ) := by
    rw [inv_lt_comm₀ hE (by norm_num)]; linarith
  have hpos : (0 : ℝ) < 1 + Real.exp (-(41 / 10 : ℝ)) := by positivity
  constructor
  · rw [lt_div_iff₀ hpos]; rw [hneg] at *; nlinarith
  · rw [div_lt_iff₀ hpos]; rw [hneg] at *; nlinarith

lemma generate_getD (s : RandStream) {n i : ℕ} (hi : i < n) :
    (generate s n).getD i default = (mkRecord s i, churnOf s i (mkRecord s i)) := by
  unfold generate
  rw [List.getD_eq_getElem?_getD, List.getElem?_map, List.getElem?_range hi]
  rfl

/-! ### Claim theorems -/

/-- C1: for every customer row, the churn probability is the sigmoid
`1 / (1 + exp(-logit))` of the spec's logit (the linear score with
intercept -2, coefficient -0.05 on tenure, 0.02 on monthly charges, +1.5
for month-to-month, +0.5 for one-year, 0.3 on support tickets, -0.8 on
satisfaction), and row `i` is labelled `Yes` exactly when its uniform draw
from the shared stream is below that probability, else `No`. -/
theorem churn_label_follows_spec_logit (s : RandStream) (n i : ℕ) (hi : i < n) :
    ((generate s n).getD i default).1 = mkRecord s i ∧
    calculate_churn_probability (mkRecord s i) = specProb (mkRecord s i) ∧
    (((generate s n).getD i default).2 = "Yes" ↔
      ((s.churnRaw i : ℚ) : ℝ) < specProb (mkRecord s i)) := by
  have hget := generate_getD s hi
  have hprob : calculate_churn_probability (mkRecord s i)
      = specProb (mkRecord s i) := by
    unfold calculate_churn_probability specProb
    rw [churnLogit_eq_specLogit]
  refine ⟨by rw [hget], hprob, ?_⟩
  rw [hget]
  show churnOf s i (mkRecord s i) = "Yes" ↔ _
  unfold churnOf
  rw [← hprob]
  have hNo : ("No" : String) ≠ "Yes" := by decide
  by_cases h : ((s.churnRaw i : ℚ) : ℝ) <
      calculate_churn_probability (mkRecord s i)
  · rw [if_pos h]
    simp [h]
  · rw [if_neg h]
    simp [hNo, h]

/-- C1 witness: the rule instantiated at a concrete stream, `n = 1`,
row `0`. -/
theorem churn_label_follows_spec_logit_witness :
    ((generate exampleStream 1).getD 0 default).1 = mkRecord exampleStream 0 ∧
    calculate_churn_probability (mkRecord exampleStream 0)
      = specProb (mkRecord exampleStream 0) ∧
    (((generate exampleStream 1).getD 0 default).2 = "Yes" ↔
      ((exampleStream.churnRaw 0 : ℚ) : ℝ) < specProb (mkRecord exampleStream 0)) :=
  churn_label_follows_spec_logit exampleStream 1 0 (by decide)

/-- C2: every generated row has `age ∈ [18, 90]`, `tenure_months ∈ [0, 200]`,
`total_charges ≥ 0` and `support_tickets ≥ 0`. -/
theorem generated_row_field_ranges (s : RandStream) (n : ℕ)
    (p : Record × String) (hp : p ∈ generate s n) :
    (18 ≤ p.1.age ∧ p.1.age ≤ 90) ∧
    (0 ≤ p.1.tenure_months ∧ p.1.tenure_months ≤ 200) ∧
    0 ≤ p.1.total_charges ∧ 0 ≤ p.1.support_tickets := by
  unfold generate at hp
  obtain ⟨i, hi, rfl⟩ := List.mem_map.mp hp
  exact ⟨age_field_bounds _, tenure_field_bounds _,
    round2_nonneg (le_max_right _ _), Nat.zero_le _⟩

/-- C2 witness: the ranges at the concrete first row of a one-row run. -/
theorem generated_row_field_ranges_witness :
    (18 ≤ (mkRecord exampleStream 0).age ∧ (mkRecord exampleStream 0).age ≤ 90) ∧
    (0 ≤ (mkRecord exampleStream 0).tenure_months ∧
      (mkRecord exampleStream 0).tenure_months ≤ 200) ∧
    0 ≤ (mkRecord exampleStream 0).total_charges ∧
    0 ≤ (mkRecord exampleStream 0).support_tickets := by
  have mem : (mkRecord exampleStream 0,
      churnOf exampleStream 0 (mkRecord exampleStream 0)) ∈
        generate exampleStream 1 := by
    unfold generate
    exact List.mem_map.mpr ⟨0, List.mem_range.mpr (by norm_num), rfl⟩
  exact generated_row_field_ranges exampleStream 1 _ mem

/-- C3: generation is deterministic: a seeded run is a pure function of the
record count and the seeded stream (`np.random.seed` fixes the stream), so
two runs with the same count and the same seeded stream give identical
tables. -/
theorem generate_deterministic (n₁ n₂ : ℕ) (s₁ s₂ : RandStream)
    (hn : n₁ = n₂) (hs : s₁ = s₂) : generate s₁ n₁ = generate s₂ n₂ := by
  subst hn
  subst hs
  rfl

/-- C3 witness: two runs at count 5 with the same stream coincide. -/
theorem generate_deterministic_witness :
    generate exampleStream 5 = generate exampleStream 5 :=
  generate_deterministic 5 5 exampleStream exampleStream rfl rfl

/-- C4: holding every other field fixed, a strictly larger tenure strictly
decreases the logit and the churn probability; strictly more support
tickets strictly increase the churn probability; strictly higher
satisfaction strictly decreases it. -/
theorem churn_score_monotonicity (r : Record) (t₁ t₂ : ℤ) (k₁ k₂ : ℕ)
    (q₁ q₂ : ℚ) (ht : t₁ < t₂) (hk : k₁ < k₂) (hq : q₁ < q₂) :
    (churnLogit { r with tenure_months := t₂ } <
        churnLogit { r with tenure_months := t₁ } ∧
      calculate_churn_probability { r with tenure_months := t₂ } <
        calculate_churn_probability { r with tenure_months := t₁ }) ∧
    calculate_churn_probability { r with support_tickets := k₁ } <
      calculate_churn_probability { r with support_tickets := k₂ } ∧
    calculate_churn_probability { r with customer_satisfaction := q₂ } <
      calculate_churn_probability { r with customer_satisfaction := q₁ } := by
  have hct : ((t₁ : ℚ)) < (t₂ : ℚ) := by exact_mod_cast ht
  have hck : ((k₁ : ℚ)) < (k₂ : ℚ) := by exact_mod_cast hk
  have hlt : churnLogit { r with tenure_months := t₂ } <
      churnLogit { r with tenure_months := t₁ } := by
    simp only [churnLogit]
    simp
    nlinarith
  have hlk : churnLogit { r with support_tickets := k₁ } <
      churnLogit { r with support_tickets := k₂ } := by
    simp only [churnLogit]
    simp
    nlinarith
  have hlq : churnLogit { r with customer_satisfaction := q₂ } <
      churnLogit { r with customer_satisfaction := q₁ } := by
    simp only [churnLogit]
    simp
    nlinarith
  exact ⟨⟨hlt, prob_lt_prob_of_logit_lt hlt⟩,
    prob_lt_prob_of_logit_lt hlk, prob_lt_prob_of_logit_lt hlq⟩

/-- C4 witness: the monotonicity at a concrete row with tenure 0 vs 1,
tickets 0 vs 1, satisfaction 1 vs 2. -/
theorem churn_score_monotonicity_witness :
    (churnLogit { sampleRecord with tenure_months := 1 } <
        churnLogit { sampleRecord with tenure_months := 0 } ∧
      calculate_churn_probability { sampleRecord with tenure_months := 1 } <
        calculate_churn_probability { sampleRecord with tenure_months := 0 }) ∧
    calculate_churn_probability { sampleRecord with support_tickets := 0 } <
      calculate_churn_probability { sampleRecord with support_tickets := 1 } ∧
    calculate_churn_probability { sampleRecord with customer_satisfaction := 2 } <
      calculate_churn_probability { sampleRecord with customer_satisfaction := 1 } :=
  churn_score_monotonicity sampleRecord 0 1 0 1 1 2
    (by decide) (by decide) (by norm_num)

/-- C5 counterexample: with a non-positive record count (0) the generator
does not fail with an `InvalidArgument` error: it succeeds and returns the
empty table. -/
theorem generate_zero_count_no_error : generate exampleStream 0 = [] := by
  unfold generate
  simp

/-- C5 amended: the source performs no record-count validation (the count
is the constant 5000); generation is total, never fails, and produces
exactly `n` rows for every count `n`, including `n = 0`. -/
theorem generate_total_row_count (s : RandStream) (n : ℕ) :
    (generate s n).length = n := by
  unfold generate
  rw [List.length_map, List.length_range]

/-- C6 counterexample: at record count 100000 the last row's id is
`CUST100000`, which is in the generated table but is not `CUST` followed by
a 5-digit zero-padded number (its digit field has 6 digits). -/
theorem customer_id_format_fails_beyond_5_digits :
    ((mkRecord exampleStream 99999,
        churnOf exampleStream 99999 (mkRecord exampleStream 99999)) ∈
      generate exampleStream 100000) ∧
    idFormatOK (mkRecord exampleStream 99999).customer_id = false := by
  constructor
  · unfold generate
    exact List.mem_map.mpr ⟨99999, List.mem_range.mpr (by norm_num), rfl⟩
  · decide

/-- C6 amended: for every record count `n ≤ 99999`, the customer ids of
the generated rows are pairwise distinct and each is `CUST` followed by a
5-digit zero-padded sequence number (beyond 99999 rows the ids stay
distinct but the digit field exceeds 5 digits). -/
theorem customer_ids_unique_and_formatted (s : RandStream) (n : ℕ)
    (hn : n ≤ 99999) :
    ((generate s n).map (fun p => p.1.customer_id)).Nodup ∧
    ∀ p ∈ generate s n, idFormatOK p.1.customer_id = true := by
  have hpow : (100000 : ℕ) < 10 ^ 40 := by norm_num
  constructor
  · unfold generate
    rw [List.map_map]
    apply List.Nodup.map_on _ (List.nodup_range n)
    intro x hx y hy hxy
    have hx' : x < n := List.mem_range.mp hx
    have hy' : y < n := List.mem_range.mp hy
    have hxy' : customerId (x + 1) = customerId (y + 1) := hxy
    have hxb : x + 1 < 10 ^ 40 := lt_of_le_of_lt (by omega) hpow
    have hyb : y + 1 < 10 ^ 40 := lt_of_le_of_lt (by omega) hpow
    have := customerId_inj hxb hyb hxy'
    omega
  · intro p hp
    unfold generate at hp
    obtain ⟨i, hi, rfl⟩ := List.mem_map.mp hp
    have hi' : i < n := List.mem_range.mp hi
    have h5 : (10 : ℕ) ^ 5 = 100000 := by norm_num
    have hb : i + 1 < 10 ^ 5 := by omega
    exact idFormatOK_customerId hb

/-- C6 witness: distinctness and format at a concrete three-row run. -/
theorem customer_ids_unique_and_formatted_witness :
    ((generate exampleStream 3).map (fun p => p.1.customer_id)).Nodup ∧
    ∀ p ∈ generate exampleStream 3, idFormatOK p.1.customer_id = true :=
  customer_ids_unique_and_formatted exampleStream 3 (by norm_num)

/-- C7: a row with tenure 0, monthly charges 20, month-to-month contract,
no support tickets and satisfaction 5 has logit exactly -4.1, and a row
with tenure 0, monthly charges 120, month-to-month contract, 10 tickets
and satisfaction 1 has logit exactly 4.1; the corresponding sigmoid
probabilities are about 0.0163 and 0.9836 (bounded here in (0.016, 0.017)
and (0.983, 0.984)). -/
theorem example_rows_exact_logits (r₁ r₂ : Record)
    (h₁t : r₁.tenure_months = 0) (h₁m : r₁.monthly_charges = 20)
    (h₁c : r₁.contract_type = "Month-to-month")
    (h₁s : r₁.support_tickets = 0) (h₁q : r₁.customer_satisfaction = 5)
    (h₂t : r₂.tenure_months = 0) (h₂m : r₂.monthly_charges = 120)
    (h₂c : r₂.contract_type = "Month-to-month")
    (h₂s : r₂.support_tickets = 10) (h₂q : r₂.customer_satisfaction = 1) :
    churnLogit r₁ = -41 / 10 ∧ churnLogit r₂ = 41 / 10 ∧
    (0.016 < calculate_churn_probability r₁ ∧
      calculate_churn_probability r₁ < 0.017) ∧
    (0.983 < calculate_churn_probability r₂ ∧
      calculate_churn_probability r₂ < 0.984) := by
  have hne : ("Month-to-month" : String) ≠ "One year" := by decide
  have hl₁ : churnLogit r₁ = -41 / 10 := by
    norm_num [churnLogit, h₁t, h₁m, h₁c, h₁s, h₁q, hne]
  have hl₂ : churnLogit r₂ = 41 / 10 := by
    norm_num [churnLogit, h₂t, h₂m, h₂c, h₂s, h₂q, hne]
  have hp₁ : calculate_churn_probability r₁ = 1 / (1 + Real.exp (41 / 10)) := by
    unfold calculate_churn_probability
    rw [hl₁]
    norm_num
  have hp₂ : calculate_churn_probability r₂
      = 1 / (1 + Real.exp (-(41 / 10 : ℝ))) := by
    unfold calculate_churn_probability
    rw [hl₂]
    norm_num
  refine ⟨hl₁, hl₂, ?_, ?_⟩
  · rw [hp₁]
    exact prob_at_neg41
  · rw [hp₂]
    exact prob_at_pos41

/-- C7 witness: the two spec example rows realised as concrete records. -/
theorem example_rows_exact_logits_witness :
    churnLogit specRow1 = -41 / 10 ∧ churnLogit specRow2 = 41 / 10 ∧
    (0.016 < calculate_churn_probability specRow1 ∧
      calculate_churn_probability specRow1 < 0.017) ∧
    (0.983 < calculate_churn_probability specRow2 ∧
      calculate_churn_probability specRow2 < 0.984) :=
  example_rows_exact_logits specRow1 specRow2
    rfl rfl rfl rfl rfl rfl rfl rfl rfl rfl

/-- C8 counterexample: the column set does not stay unchanged after
generation: the visualisation section appends `tenure_group` and
`satisfaction_group`, so the table's columns differ from the generated
(exported) schema. -/
theorem viz_columns_added_after_generation : vizColumns ≠ exportedColumns := by
  decide

/-- C8 amended: after generation no existing field of any row is changed
and no row is deleted — the visualisation step only appends the two
derived group columns (`tenure_group`, `satisfaction_group`), preserving
every original field value, the churn label and the row count. -/
theorem post_generation_rows_preserved :
    (∀ p : Record × String, (addGroups p).base = p.1 ∧ (addGroups p).churn = p.2) ∧
    (∀ t : List (Record × String), (t.map addGroups).length = t.length) ∧
    vizColumns = exportedColumns ++ ["tenure_group", "satisfaction_group"] := by
  refine ⟨fun p => ⟨rfl, rfl⟩, fun t => by simp, rfl⟩

/-- C9: for every clamped-then-rounded field the clamp comes first: age and
tenure are clamped to their ranges and then truncated toward zero,
total charges are clamped at 0 and then rounded to 2 decimals, and in
consequence truncation/rounding never leaves the stated domain. -/
theorem clamp_applied_before_rounding (s : RandStream) (i : ℕ) :
    (mkRecord s i).age = truncInt (clip (s.ageRaw i) 18 90) ∧
    (18 ≤ (mkRecord s i).age ∧ (mkRecord s i).age ≤ 90) ∧
    (mkRecord s i).tenure_months = truncInt (clip (s.tenureRaw i) 0 200) ∧
    (0 ≤ (mkRecord s i).tenure_months ∧ (mkRecord s i).tenure_months ≤ 200) ∧
    (mkRecord s i).total_charges = round2 (clipLo
      (((mkRecord s i).tenure_months : ℚ) * (mkRecord s i).monthly_charges
        + s.noiseRaw i) 0) ∧
    0 ≤ (mkRecord s i).total_charges :=
  ⟨rfl, age_field_bounds _, rfl, tenure_field_bounds _, rfl,
    round2_nonneg (le_max_right _ _)⟩

/-- C10: the intermediate `churn_prob` column exists in the pre-export
table, is dropped before export, the exported schema is exactly the data
model's fields, and the exported rows are the projection of the
intermediate table that forgets the probability column. -/
theorem churn_prob_dropped_before_export :
    "churn_prob" ∈ columnsWithChurn ∧
    "churn_prob" ∉ exportedColumns ∧
    exportedColumns =
      ["customer_id", "age", "gender", "tenure_months", "contract_type",
       "monthly_charges", "internet_service", "online_security",
       "tech_support", "streaming_tv", "payment_method", "paperless_billing",
       "support_tickets", "customer_satisfaction", "total_charges",
       "churn"] ∧
    ∀ (s : RandStream) (n : ℕ),
      generate s n = (tableWithProbChurn s n).map (fun x => (x.1, x.2.2)) := by
  refine ⟨by decide, by decide, by decide, ?_⟩
  intro s n
  unfold generate tableWithProbChurn
  rw [List.map_map]
  rfl
